import Mathlib

/-!
Verification of the Rule Composition and Code-Generation Engine
(routes/rules.py, routes/rule_groups.py, routes/functions.py) against its
specification.

The relational store (SQLite) is embedded shallowly: each table is a list of
row structures holding the columns that the modelled operations read or
write.  Audit timestamp columns (CREATE_DATE / UPDATE_DATE), which no
modelled operation ever reads, are omitted.  Python `None` / SQL `NULL` is
`Option.none`; Python truthiness of a nullable integer column (`None` and
`0` are falsy) is modelled explicitly.  A handler that catches an exception
and returns an error response is modelled as a function returning
`Option.none`.
-/

/-- Row of GEE_BASE_FUNCTIONS (the function catalog). -/
structure BaseFunction where
  gbfId : Nat
  funcName : String
  paramCount : Nat
deriving DecidableEq

/-- Row of GEE_BASE_FUNCTIONS_PARAMS (declared parameters of a catalog function). -/
structure BaseFunctionParam where
  gbfpId : Nat
  gbfId : Nat
deriving DecidableEq

/-- Row of GEE_FIELDS (the field catalog): name and declared type. -/
structure GField where
  gfId : Nat
  gfName : String
  gfType : String
deriving DecidableEq

/-- Row of GEE_RULE_LINES.  IS_CONDITION is stored as the integer
`1 if is_condition else 0` by `add_rule_line`, hence modelled as `Bool`. -/
structure RuleLine where
  lineId : Nat
  ruleId : Nat
  functionId : Nat
  isCondition : Bool
  sequenceNum : Int
deriving DecidableEq

/-- Row of GEE_RULE_LINE_PARAMS.  FIELD_ID and LITERAL_VALUE are nullable. -/
structure RuleLineParam where
  paramId : Nat
  lineId : Nat
  paramIndex : Nat
  fieldId : Option Nat
  literalValue : Option String
deriving DecidableEq

/-- Row of GRG_RULE_GROUPS.  COND_GRG_ID_START / ACT_GRG_ID_START receive the
integer `1 if is_condition else 0` (resp. `is_action`) on add/update. -/
structure RuleGroup where
  grgId : Nat
  groupName : String
  condType : Option String
  parentId : Option Nat
  description : Option String
  condStart : Nat
  actStart : Nat
deriving DecidableEq

/-- Row of GRG_RULE_GROUP_RULES (group membership): the insert statements set
only GRG_ID, RULE_ID and SEQUENCE, taking RULE_ID / SEQUENCE from the
submitted entry via `rule.get(...)`, which may be absent (NULL). -/
structure GroupRuleRow where
  grgId : Nat
  ruleId : Option Nat
  sequence : Option Int
deriving DecidableEq

/-- One entry of the `rules` list submitted to add/update_rule_group. -/
structure SubmittedGroupRule where
  id : Option Nat
  sequence : Option Int
deriving DecidableEq

/-- The relational store: the tables touched by the rule engine. -/
structure DB where
  functions : List BaseFunction
  functionParams : List BaseFunctionParam
  fields : List GField
  ruleLines : List RuleLine
  ruleLineParams : List RuleLineParam
  ruleGroups : List RuleGroup
  groupRules : List GroupRuleRow
deriving DecidableEq

/-- Python truthiness of a nullable integer column: `None` and `0` are falsy. -/
def truthyId : Option Nat → Bool
  | Option.none => false
  | some n => n != 0

/-- The LEFT JOIN of a parameter row with GEE_FIELDS on FIELD_ID = GF_ID
(GBF/GF ids are primary keys, so the join is a lookup). -/
def lookupField (db : DB) (fid : Option Nat) : Option GField :=
  fid.bind (fun i => db.fields.find? (fun f => f.gfId == i))

/-- A Python value that is either a string or `None`: the elements appended to
`param_values` in `generate_code`. -/
inductive PyVal where
  | str : String → PyVal
  | null : PyVal
deriving DecidableEq

/-- Rendering a possibly-`None` value inside a Python f-string. -/
def pyStr : Option String → String
  | some s => s
  | Option.none => "None"

/-- `PyVal.str` projection; `None` has no string and makes `str.join` raise. -/
def pyToStr : PyVal → Option String
  | PyVal.str s => some s
  | PyVal.null => Option.none

/-- Map a fallible function over a list, failing as soon as one element
fails (the `Option` effect of `List.mapM`, with plain equations). -/
def optMapList {α β : Type} (f : α → Option β) : List α → Option (List β)
  | [] => some []
  | x :: xs => do
      let y ← f x
      let ys ← optMapList f xs
      pure (y :: ys)

/-- Python `sep.join(vs)`: raises TypeError (here `Option.none`) as soon as an
element is not a string. -/
def pyJoin (sep : String) (vs : List PyVal) : Option String :=
  (optMapList pyToStr vs).map (String.intercalate sep)

/-- The body of the parameter loop in `generate_code` (rules.py:402-411): a
truthy FIELD_ID renders the field-access path (ignoring the literal); else a
joined GF_TYPE equal to the string STRING wraps the literal in single quotes;
else the raw literal (possibly `None`) is appended. -/
def renderParam (db : DB) (p : RuleLineParam) : PyVal :=
  let gf := lookupField db p.fieldId
  if truthyId p.fieldId then
    PyVal.str ("fields." ++ pyStr (gf.map GField.gfName))
  else if gf.map GField.gfType == some "STRING" then
    PyVal.str ("\x27" ++ pyStr p.literalValue ++ "\x27")
  else
    match p.literalValue with
    | some s => PyVal.str s
    | Option.none => PyVal.null

/-- The per-line parameter query (rules.py:391-398): rows of
GEE_RULE_LINE_PARAMS with this LINE_ID, ordered by PARAM_INDEX ascending. -/
def paramsFor (db : DB) (lid : Nat) : List RuleLineParam :=
  (db.ruleLineParams.filter (fun p => p.lineId == lid)).insertionSort
    (fun a b => a.paramIndex ≤ b.paramIndex)

/-- The rule-line query (rules.py:374-381): GEE_RULE_LINES rows of the rule
INNER JOINed with GEE_BASE_FUNCTIONS on FUNCTION_ID = GBF_ID; a line whose
function id has no catalog row produces no joined row. -/
def joinedLines (db : DB) (rid : Nat) : List (RuleLine × BaseFunction) :=
  (db.ruleLines.filter (fun l => l.ruleId == rid)).filterMap
    (fun l => (db.functions.find? (fun f => f.gbfId == l.functionId)).map
      (fun f => (l, f)))

/-- The ORDER BY IS_CONDITION DESC, SEQUENCE_NUM ASC comparator. -/
def lineLe (a b : RuleLine × BaseFunction) : Bool :=
  (a.1.isCondition && !b.1.isCondition) ||
    (a.1.isCondition == b.1.isCondition && decide (a.1.sequenceNum ≤ b.1.sequenceNum))

/-- The comparator as a binary relation, for sorting. -/
def lineRel (a b : RuleLine × BaseFunction) : Prop := lineLe a b = true

instance : DecidableRel lineRel := fun a b => instDecidableEqBool (lineLe a b) true

/-- The ordered result set of the rule-line query (a stable sort by the
ORDER BY comparator). -/
def sortedLines (db : DB) (rid : Nat) : List (RuleLine × BaseFunction) :=
  (joinedLines db rid).insertionSort lineRel

/-- One statement of generated code (rules.py:400-413): the function name
applied to the comma-joined rendered parameters; fails when the join fails. -/
def renderLine (db : DB) (l : RuleLine × BaseFunction) : Option String :=
  (pyJoin ", " ((paramsFor db l.1.lineId).map (renderParam db))).map
    (fun args => l.2.funcName ++ "(" ++ args ++ ");")

/-- The statement loop of `generate_code` (rules.py:389-418): statements are
appended to the condition block or the action block according to the line's
IS_CONDITION flag; a TypeError while rendering any line aborts the whole
request. -/
def buildBlocks (db : DB) : List (RuleLine × BaseFunction) →
    Option (List String × List String)
  | [] => some ([], [])
  | l :: ls => do
      let stmt ← renderLine db l
      let ca ← buildBlocks db ls
      if l.1.isCondition then pure (stmt :: ca.1, ca.2) else pure (ca.1, stmt :: ca.2)

/-- The successful response body of `generate_code`. -/
structure CodeResult where
  conditionCode : String
  actionCode : String
deriving DecidableEq

/-- `generate_code` (rules.py:370-426): empty result set short-circuits to two
empty strings; otherwise the two blocks are newline-joined.  `Option.none`
models the caught-exception error response. -/
def generate_code (db : DB) (rid : Nat) : Option CodeResult :=
  let lines := sortedLines db rid
  if lines.isEmpty then some { conditionCode := "", actionCode := "" }
  else (buildBlocks db lines).map
    (fun ca => { conditionCode := String.intercalate "\n" ca.1,
                 actionCode := String.intercalate "\n" ca.2 })

/-- `delete_rule_line` (rules.py:356-368): deletes the parameter rows of the
line, then the line itself. -/
def delete_rule_line (db : DB) (lid : Nat) : DB :=
  { db with
    ruleLineParams := db.ruleLineParams.filter (fun p => p.lineId != lid),
    ruleLines := db.ruleLines.filter (fun l => l.lineId != lid) }

/-- The delete-guard query of `delete_function` (functions.py:120-124):
COUNT(*) of GEE_RULE_LINES rows whose FUNCTION_ID is the function. -/
def countFunctionUsages (db : DB) (fid : Nat) : Nat :=
  (db.ruleLines.filter (fun l => l.functionId == fid)).length

/-- `delete_function` (functions.py:116-138): when the usage count is
positive, the handler answers failure without touching the store; otherwise
it deletes the function's declared parameters and the function row.  The
`Bool` is the `success` flag of the response. -/
def delete_function (db : DB) (fid : Nat) : DB × Bool :=
  if countFunctionUsages db fid > 0 then (db, false)
  else
    ({ db with
       functionParams := db.functionParams.filter (fun p => p.gbfId != fid),
       functions := db.functions.filter (fun f => f.gbfId != fid) }, true)

/-- `update_rule_group` (rule_groups.py:83-145): after the required-field
checks (a falsy group id or group name is rejected with no mutation), the
group row is updated, every membership row of the group is deleted, and one
row per submitted entry is inserted carrying the entry's own id and sequence
values. -/
def update_rule_group (db : DB) (grgId : Nat) (groupName : String)
    (condType : Option String) (parentGroupId : Option Nat)
    (description : Option String) (isCondition isAction : Bool)
    (rules : List SubmittedGroupRule) : DB :=
  if grgId == 0 || groupName == "" then db
  else
    { db with
      ruleGroups := db.ruleGroups.map (fun g =>
        if g.grgId == grgId then
          { g with groupName := groupName, condType := condType,
                   parentId := parentGroupId, description := description,
                   condStart := if isCondition then 1 else 0,
                   actStart := if isAction then 1 else 0 }
        else g),
      groupRules :=
        db.groupRules.filter (fun r => r.grgId != grgId)
          ++ rules.map (fun r =>
              { grgId := grgId, ruleId := r.id, sequence := r.sequence }) }

/-! ## Helper lemmas -/

/-- The joined GF_TYPE column of a parameter row (NULL unless FIELD_ID matches
a field). -/
def fieldTypeOf (db : DB) (p : RuleLineParam) : Option String :=
  (lookupField db p.fieldId).map GField.gfType

lemma lineLe_trans : ∀ a b c, lineLe a b = true → lineLe b c = true →
    lineLe a c = true := by
  intro a b c hab hbc
  unfold lineLe at *
  cases ha : a.1.isCondition <;> cases hb : b.1.isCondition <;>
    cases hc : c.1.isCondition <;> simp_all <;> omega

lemma lineLe_total : ∀ a b, (lineLe a b || lineLe b a) = true := by
  intro a b
  unfold lineLe
  cases ha : a.1.isCondition <;> cases hb : b.1.isCondition <;> simp <;> omega

instance : IsTrans (RuleLine × BaseFunction) lineRel := ⟨lineLe_trans⟩

instance : IsTotal (RuleLine × BaseFunction) lineRel :=
  ⟨fun a b => by
    have h := lineLe_total a b
    cases hab : lineLe a b with
    | true => exact Or.inl hab
    | false => rw [hab] at h; simp at h; exact Or.inr h⟩

lemma optMapList_eq_none_of_mem {α β : Type} (f : α → Option β) {l : List α}
    {a : α} (ha : a ∈ l) (hf : f a = Option.none) :
    optMapList f l = Option.none := by
  induction l with
  | nil => cases ha
  | cons x xs ih =>
    rcases List.mem_cons.mp ha with h | h
    · subst h; simp [optMapList, hf]
    · cases hx : f x <;> simp [optMapList, hx, ih h]

lemma buildBlocks_eq_none_of_mem (db : DB) {ls : List (RuleLine × BaseFunction)}
    {l : RuleLine × BaseFunction} (hl : l ∈ ls)
    (h : renderLine db l = Option.none) : buildBlocks db ls = Option.none := by
  induction ls with
  | nil => cases hl
  | cons x xs ih =>
    rcases List.mem_cons.mp hl with rfl | hmem
    · simp [buildBlocks, h]
    · cases hx : renderLine db x <;> simp [buildBlocks, hx, ih hmem]

/-- Condition-phase rows of the ordered result set. -/
def condLines (db : DB) (rid : Nat) : List (RuleLine × BaseFunction) :=
  (sortedLines db rid).filter (fun l => l.1.isCondition)

/-- Action-phase rows of the ordered result set. -/
def actionLines (db : DB) (rid : Nat) : List (RuleLine × BaseFunction) :=
  (sortedLines db rid).filter (fun l => !l.1.isCondition)

/-- Phase-split reformulation of the statement loop: render the condition rows
and the action rows separately, in list order. -/
def blocksSpec (db : DB) (ls : List (RuleLine × BaseFunction)) :
    Option (List String × List String) := do
  let cs ← optMapList (renderLine db) (ls.filter (fun l => l.1.isCondition))
  let bs ← optMapList (renderLine db) (ls.filter (fun l => !l.1.isCondition))
  pure (cs, bs)

lemma buildBlocks_eq_blocksSpec (db : DB) :
    ∀ ls, buildBlocks db ls = blocksSpec db ls := by
  intro ls
  induction ls with
  | nil => rfl
  | cons l ls ih =>
    cases hc : l.1.isCondition <;> cases hr : renderLine db l <;>
      cases hA : optMapList (renderLine db) (ls.filter (fun x => x.1.isCondition)) <;>
      cases hB : optMapList (renderLine db) (ls.filter (fun x => !x.1.isCondition)) <;>
        simp_all [buildBlocks, blocksSpec, List.filter_cons, optMapList]

lemma update_rule_group_groupRules_eq (db : DB) (grgId : Nat)
    (groupName : String) (condType : Option String) (parentGroupId : Option Nat)
    (description : Option String) (isCondition isAction : Bool)
    (rules : List SubmittedGroupRule)
    (hid : grgId ≠ 0) (hname : groupName ≠ "") :
    (update_rule_group db grgId groupName condType parentGroupId description
        isCondition isAction rules).groupRules
      = db.groupRules.filter (fun r => r.grgId != grgId)
        ++ rules.map (fun r =>
            { grgId := grgId, ruleId := r.id, sequence := r.sequence }) := by
  have hc : ¬((grgId == 0 || groupName == "") = true) := by simp [hid, hname]
  unfold update_rule_group
  rw [if_neg hc]

/-! ## Claim theorems -/

/-- Store for the C1 evidence: rule 1 has two condition lines; line 1 calls
catalog function 10 with the literal 7, while line 2 references function id
99, which has no row in the catalog. -/
def c1db : DB :=
  { functions := [{ gbfId := 10, funcName := "checkA", paramCount := 1 }],
    functionParams := [], fields := [],
    ruleLines :=
      [{ lineId := 1, ruleId := 1, functionId := 10, isCondition := true,
         sequenceNum := 0 },
       { lineId := 2, ruleId := 1, functionId := 99, isCondition := true,
         sequenceNum := 1 }],
    ruleLineParams :=
      [{ paramId := 1, lineId := 1, paramIndex := 0, fieldId := Option.none,
         literalValue := some "7" }],
    ruleGroups := [], groupRules := [] }

/-- C1: the claim (and the spec) require `generate_code` to abort with a
NotFound error when a rule line references a missing function.  The code
instead INNER JOINs lines with the catalog, so the dangling line is silently
dropped: rule 1 demonstrably contains a line whose function id resolves to no
catalog row, yet generation succeeds and the output simply omits that line. -/
theorem generate_code_dangling_function_silent_skip :
    (c1db.ruleLines.filter (fun l => l.ruleId == 1 &&
        (c1db.functions.find? (fun f => f.gbfId == l.functionId)).isNone)) ≠ []
    ∧ generate_code c1db 1
        = some { conditionCode := "checkA(7);", actionCode := "" } := by
  decide

/-- C2: for a parameter whose FIELD_ID is falsy (so no field reference takes
precedence), a joined declared type exactly STRING wraps the literal in
single quotes, and any other declared type — or no type context at all —
renders the literal verbatim. -/
theorem generate_code_literal_quoting (db : DB) (p : RuleLineParam) (s : String)
    (hfr : truthyId p.fieldId = false) (hlit : p.literalValue = some s) :
    (fieldTypeOf db p = some "STRING" →
      renderParam db p = PyVal.str ("\x27" ++ s ++ "\x27")) ∧
    (fieldTypeOf db p ≠ some "STRING" → renderParam db p = PyVal.str s) := by
  unfold fieldTypeOf
  constructor
  · intro h
    simp [renderParam, hfr, hlit, h, pyStr]
  · intro h
    have hb : ((lookupField db p.fieldId).map GField.gfType == some "STRING")
        = false := beq_eq_false_iff_ne.mpr h
    simp [renderParam, hfr, hlit, hb]

/-- Store for the C2 witness: one STRING-typed field with id 0, so that a
parameter row can reach the literal branch with a joined STRING type. -/
def w2db : DB :=
  { functions := [], functionParams := [],
    fields := [{ gfId := 0, gfName := "z", gfType := "STRING" }],
    ruleLines := [], ruleLineParams := [], ruleGroups := [], groupRules := [] }

/-- Parameter row for the C2 witness. -/
def w2p : RuleLineParam :=
  { paramId := 1, lineId := 1, paramIndex := 0, fieldId := some 0,
    literalValue := some "abc" }

/-- C2 witness: concrete instantiation of the quoting theorem. -/
theorem generate_code_literal_quoting_witness :
    (fieldTypeOf w2db w2p = some "STRING" →
      renderParam w2db w2p = PyVal.str ("\x27" ++ "abc" ++ "\x27")) ∧
    (fieldTypeOf w2db w2p ≠ some "STRING" →
      renderParam w2db w2p = PyVal.str "abc") :=
  generate_code_literal_quoting w2db w2p "abc" (by decide) rfl

/-- C3: a parameter carrying a field reference that resolves in the catalog
renders as the field-access expression, and the stored literal has no effect
on the rendering (replacing it by anything yields the same result). -/
theorem generate_code_field_ref_precedence (db : DB) (p : RuleLineParam)
    (f : GField) (lit : String) (v : Option String)
    (ht : truthyId p.fieldId = true) (hf : lookupField db p.fieldId = some f)
    (_hlit : p.literalValue = some lit) :
    renderParam db p = PyVal.str ("fields." ++ f.gfName) ∧
    renderParam db { p with literalValue := v } = renderParam db p := by
  constructor
  · simp [renderParam, ht, hf, pyStr]
  · simp [renderParam, ht, hf]

/-- Store for the C3 witness. -/
def w3db : DB :=
  { functions := [], functionParams := [],
    fields := [{ gfId := 3, gfName := "age", gfType := "INTEGER" }],
    ruleLines := [], ruleLineParams := [], ruleGroups := [], groupRules := [] }

/-- Parameter row for the C3 witness: both a field reference and a literal. -/
def w3p : RuleLineParam :=
  { paramId := 1, lineId := 1, paramIndex := 0, fieldId := some 3,
    literalValue := some "42" }

/-- C3 witness: concrete instantiation of the precedence theorem. -/
theorem generate_code_field_ref_precedence_witness :
    renderParam w3db w3p = PyVal.str ("fields." ++ "age") ∧
    renderParam w3db { w3p with literalValue := Option.none }
      = renderParam w3db w3p :=
  generate_code_field_ref_precedence w3db w3p
    { gfId := 3, gfName := "age", gfType := "INTEGER" } "42" Option.none
    (by decide) rfl rfl

/-- Store for the C5 counterexample: group 1 exists with one prior member. -/
def c5db : DB :=
  { functions := [], functionParams := [], fields := [], ruleLines := [],
    ruleLineParams := [],
    ruleGroups := [{ grgId := 1, groupName := "G", condType := Option.none,
                     parentId := Option.none, description := Option.none,
                     condStart := 0, actStart := 0 }],
    groupRules := [{ grgId := 1, ruleId := some 3, sequence := some 0 }] }

/-- C5 counterexample: updating group 1 with the single entry (rule 7 at
submitted sequence 5) stores sequence 5 — not sequence 0, the entry's list
position, as the claim requires. -/
theorem update_rule_group_sequence_counterexample :
    ((update_rule_group c5db 1 "G" Option.none Option.none Option.none false
        false [{ id := some 7, sequence := some 5 }]).groupRules
      = [{ grgId := 1, ruleId := some 7, sequence := some 5 }]) ∧
    ((update_rule_group c5db 1 "G" Option.none Option.none Option.none false
        false [{ id := some 7, sequence := some 5 }]).groupRules
      ≠ [{ grgId := 1, ruleId := some 7, sequence := some 0 }]) := by
  decide

/-- C5 (amended): after a rule group update, the stored membership rows of the
group are exactly the submitted list, each row carrying the id and sequence
value of its submitted entry verbatim (not a sequence derived from list
position). -/
theorem update_rule_group_membership_stores_submitted (db : DB) (grgId : Nat)
    (groupName : String) (condType : Option String) (parentGroupId : Option Nat)
    (description : Option String) (isCondition isAction : Bool)
    (rules : List SubmittedGroupRule)
    (hid : grgId ≠ 0) (hname : groupName ≠ "") :
    ((update_rule_group db grgId groupName condType parentGroupId description
        isCondition isAction rules).groupRules.filter
          (fun r => r.grgId == grgId))
      = rules.map (fun r =>
          { grgId := grgId, ruleId := r.id, sequence := r.sequence }) := by
  rw [update_rule_group_groupRules_eq db grgId groupName condType parentGroupId
      description isCondition isAction rules hid hname, List.filter_append]
  have h1 : (db.groupRules.filter (fun r => r.grgId != grgId)).filter
      (fun r => r.grgId == grgId) = [] := by
    refine List.filter_eq_nil_iff.mpr ?_
    intro a ha
    have h := (List.mem_filter.mp ha).2
    simp at h ⊢
    exact h
  have h2 : (rules.map (fun r =>
      ({ grgId := grgId, ruleId := r.id, sequence := r.sequence } :
        GroupRuleRow))).filter (fun r => r.grgId == grgId)
      = rules.map (fun r =>
          { grgId := grgId, ruleId := r.id, sequence := r.sequence }) := by
    refine List.filter_eq_self.mpr ?_
    intro a ha
    rcases List.mem_map.mp ha with ⟨r, hr, rfl⟩
    simp
  rw [h1, h2, List.nil_append]

/-- C5 witness: concrete instantiation of the amended-membership theorem. -/
theorem update_rule_group_membership_stores_submitted_witness :
    ((update_rule_group c5db 1 "G2" Option.none Option.none Option.none false
        false [{ id := some 7, sequence := some 5 }]).groupRules.filter
          (fun r => r.grgId == 1))
      = [{ grgId := 1, ruleId := some 7, sequence := some 5 }] :=
  update_rule_group_membership_stores_submitted c5db 1 "G2" Option.none
    Option.none Option.none false false [{ id := some 7, sequence := some 5 }]
    (by decide) (by decide)

/-- C6: deleting a function whose rule-line usage count is positive answers
failure and leaves the entire store untouched — the function row and all its
usages remain queryable, unchanged. -/
theorem delete_function_in_use_is_noop (db : DB) (fid : Nat)
    (h : 0 < countFunctionUsages db fid) :
    delete_function db fid = (db, false) := by
  unfold delete_function
  rw [if_pos h]

/-- Store for the C6 witness: function 5 is used by one rule line. -/
def w6db : DB :=
  { functions := [{ gbfId := 5, funcName := "g", paramCount := 0 }],
    functionParams := [], fields := [],
    ruleLines := [{ lineId := 1, ruleId := 1, functionId := 5,
                    isCondition := true, sequenceNum := 0 }],
    ruleLineParams := [], ruleGroups := [], groupRules := [] }

/-- C6 witness: concrete instantiation of the delete-guard theorem. -/
theorem delete_function_in_use_is_noop_witness :
    delete_function w6db 5 = (w6db, false) :=
  delete_function_in_use_is_noop w6db 5 (by decide)

/-- C7: a rule group update replaces the group's membership wholesale: the
rows stored for the group afterwards are exactly the submitted entries, and
membership rows of every other group are untouched. -/
theorem update_rule_group_full_replace (db : DB) (grgId : Nat)
    (groupName : String) (condType : Option String) (parentGroupId : Option Nat)
    (description : Option String) (isCondition isAction : Bool)
    (rules : List SubmittedGroupRule)
    (hid : grgId ≠ 0) (hname : groupName ≠ "") :
    ((update_rule_group db grgId groupName condType parentGroupId description
        isCondition isAction rules).groupRules.filter
          (fun r => r.grgId == grgId))
      = rules.map (fun r =>
          { grgId := grgId, ruleId := r.id, sequence := r.sequence }) ∧
    ((update_rule_group db grgId groupName condType parentGroupId description
        isCondition isAction rules).groupRules.filter
          (fun r => r.grgId != grgId))
      = db.groupRules.filter (fun r => r.grgId != grgId) := by
  rw [update_rule_group_groupRules_eq db grgId groupName condType parentGroupId
      description isCondition isAction rules hid hname]
  constructor
  · rw [List.filter_append]
    have h1 : (db.groupRules.filter (fun r => r.grgId != grgId)).filter
        (fun r => r.grgId == grgId) = [] := by
      refine List.filter_eq_nil_iff.mpr ?_
      intro a ha
      have h := (List.mem_filter.mp ha).2
      simp at h ⊢
      exact h
    have h2 : (rules.map (fun r =>
        ({ grgId := grgId, ruleId := r.id, sequence := r.sequence } :
          GroupRuleRow))).filter (fun r => r.grgId == grgId)
        = rules.map (fun r =>
            { grgId := grgId, ruleId := r.id, sequence := r.sequence }) := by
      refine List.filter_eq_self.mpr ?_
      intro a ha
      rcases List.mem_map.mp ha with ⟨r, hr, rfl⟩
      simp
    rw [h1, h2, List.nil_append]
  · rw [List.filter_append]
    have h3 : (db.groupRules.filter (fun r => r.grgId != grgId)).filter
        (fun r => r.grgId != grgId) = db.groupRules.filter
          (fun r => r.grgId != grgId) :=
      List.filter_eq_self.mpr (fun a ha => (List.mem_filter.mp ha).2)
    have h4 : (rules.map (fun r =>
        ({ grgId := grgId, ruleId := r.id, sequence := r.sequence } :
          GroupRuleRow))).filter (fun r => r.grgId != grgId) = [] := by
      refine List.filter_eq_nil_iff.mpr ?_
      intro a ha
      rcases List.mem_map.mp ha with ⟨r, hr, rfl⟩
      simp
    rw [h3, h4, List.append_nil]

/-- Store for the C7 witness: group 1 holds rules 3 and 4; group 2 holds
rule 9. -/
def w7db : DB :=
  { functions := [], functionParams := [], fields := [], ruleLines := [],
    ruleLineParams := [],
    ruleGroups := [{ grgId := 1, groupName := "G", condType := Option.none,
                     parentId := Option.none, description := Option.none,
                     condStart := 0, actStart := 0 }],
    groupRules := [{ grgId := 1, ruleId := some 3, sequence := some 0 },
                   { grgId := 1, ruleId := some 4, sequence := some 1 },
                   { grgId := 2, ruleId := some 9, sequence := some 0 }] }

/-- C7 witness: replacing group 1's membership [3@0, 4@1] by [4@0] leaves
exactly one row for group 1 and does not touch group 2's row. -/
theorem update_rule_group_full_replace_witness :
    ((update_rule_group w7db 1 "G" Option.none Option.none Option.none false
        false [{ id := some 4, sequence := some 0 }]).groupRules.filter
          (fun r => r.grgId == 1))
      = [{ grgId := 1, ruleId := some 4, sequence := some 0 }] ∧
    ((update_rule_group w7db 1 "G" Option.none Option.none Option.none false
        false [{ id := some 4, sequence := some 0 }]).groupRules.filter
          (fun r => r.grgId != 1))
      = w7db.groupRules.filter (fun r => r.grgId != 1) :=
  update_rule_group_full_replace w7db 1 "G" Option.none Option.none Option.none
    false false [{ id := some 4, sequence := some 0 }] (by decide) (by decide)

/-- C9: deleting a rule line removes the line and cascades to its parameters:
afterwards no parameter row referencing the line id remains, and no rule-line
row with that id remains. -/
theorem delete_rule_line_cascade (db : DB) (lid : Nat) :
    ((delete_rule_line db lid).ruleLineParams.filter
        (fun p => p.lineId == lid)) = [] ∧
    ((delete_rule_line db lid).ruleLines.filter
        (fun l => l.lineId == lid)) = [] := by
  refine ⟨List.filter_eq_nil_iff.mpr ?_, List.filter_eq_nil_iff.mpr ?_⟩ <;>
  · intro a ha
    have h := (List.mem_filter.mp ha).2
    simp at h ⊢
    exact h

/-- C8: `generate_code` is a pure function of the stored rows it reads: two
stores agreeing on the function catalog, the field catalog, the rule lines
and the line parameters (whatever the other tables hold) yield identical
generated code for every rule. -/
theorem generate_code_deterministic (db₁ db₂ : DB) (rid : Nat)
    (hfns : db₁.functions = db₂.functions) (hflds : db₁.fields = db₂.fields)
    (hlines : db₁.ruleLines = db₂.ruleLines)
    (hparams : db₁.ruleLineParams = db₂.ruleLineParams) :
    generate_code db₁ rid = generate_code db₂ rid := by
  have hjl : joinedLines db₁ = joinedLines db₂ := by
    funext r
    unfold joinedLines
    rw [hfns, hlines]
  have hpf : paramsFor db₁ = paramsFor db₂ := by
    funext lid
    unfold paramsFor
    rw [hparams]
  have hrp : renderParam db₁ = renderParam db₂ := by
    funext p
    unfold renderParam lookupField
    rw [hflds]
  have hrlf : renderLine db₁ = renderLine db₂ := by
    funext l
    unfold renderLine
    rw [hpf, hrp]
  have hbbf : ∀ ls, buildBlocks db₁ ls = buildBlocks db₂ ls := by
    intro ls
    induction ls with
    | nil => rfl
    | cons l ls ih => simp [buildBlocks, hrlf, ih]
  unfold generate_code sortedLines
  rw [hjl]
  simp only [hbbf]

/-- Store for the C8 witness. -/
def w8a : DB :=
  { functions := [{ gbfId := 1, funcName := "h", paramCount := 0 }],
    functionParams := [], fields := [],
    ruleLines := [{ lineId := 1, ruleId := 1, functionId := 1,
                    isCondition := true, sequenceNum := 0 }],
    ruleLineParams := [], ruleGroups := [], groupRules := [] }

/-- Same rule/function/field/parameter rows as `w8a`, different group table. -/
def w8b : DB :=
  { w8a with groupRules := [{ grgId := 9, ruleId := some 1, sequence := some 0 }] }

/-- C8 witness: concrete instantiation of the determinism theorem. -/
theorem generate_code_deterministic_witness :
    generate_code w8a 1 = generate_code w8b 1 :=
  generate_code_deterministic w8a w8b 1 rfl rfl rfl rfl

/-- C10: a rule owning a line (whose function resolves in the catalog) with a
parameter that has neither a field reference nor a literal value makes
`generate_code` fail with an error: the `None` literal is appended to the
argument list and the string join is undefined on it, so no code output is
produced. -/
theorem generate_code_missing_param_value_errors (db : DB) (rid : Nat)
    (line : RuleLine) (p : RuleLineParam)
    (hl : line ∈ db.ruleLines) (hrid : line.ruleId = rid)
    (hfn : ∃ f ∈ db.functions, f.gbfId = line.functionId)
    (hp : p ∈ db.ruleLineParams) (hpl : p.lineId = line.lineId)
    (hfid : p.fieldId = Option.none) (hlit : p.literalValue = Option.none) :
    generate_code db rid = Option.none := by
  have hfind : (db.functions.find? (fun f => f.gbfId == line.functionId)).isSome := by
    rw [List.find?_isSome]
    rcases hfn with ⟨f, hfmem, hfe⟩
    exact ⟨f, hfmem, by simp [hfe]⟩
  rcases Option.isSome_iff_exists.mp hfind with ⟨f₀, hf₀⟩
  have hjl : (line, f₀) ∈ joinedLines db rid := by
    unfold joinedLines
    rw [List.mem_filterMap]
    exact ⟨line, List.mem_filter.mpr ⟨hl, by simp [hrid]⟩, by rw [hf₀]; rfl⟩
  have hsl : (line, f₀) ∈ sortedLines db rid := by
    unfold sortedLines
    exact ((List.perm_insertionSort lineRel (joinedLines db rid)).mem_iff).mpr hjl
  have hpf : p ∈ paramsFor db line.lineId := by
    unfold paramsFor
    exact ((List.perm_insertionSort _ _).mem_iff).mpr
      (List.mem_filter.mpr ⟨hp, by simp [hpl]⟩)
  have hnull : renderParam db p = PyVal.null := by
    simp [renderParam, hfid, hlit, lookupField, truthyId]
  have hrl : renderLine db (line, f₀) = Option.none := by
    unfold renderLine pyJoin
    have hm : optMapList pyToStr
        ((paramsFor db line.lineId).map (renderParam db)) = Option.none := by
      refine optMapList_eq_none_of_mem pyToStr (List.mem_map_of_mem _ hpf) ?_
      rw [hnull]; rfl
    dsimp only
    rw [hm]
    rfl
  have hbb : buildBlocks db (sortedLines db rid) = Option.none :=
    buildBlocks_eq_none_of_mem db hsl hrl
  have hne : (sortedLines db rid).isEmpty = false := by
    cases hcase : sortedLines db rid with
    | nil => rw [hcase] at hsl; cases hsl
    | cons x xs => rfl
  unfold generate_code
  simp [hne, hbb]

/-- Store for the C10 witness: rule 1 has one line calling catalog function
10 with a parameter whose FIELD_ID and LITERAL_VALUE are both NULL. -/
def w10db : DB :=
  { functions := [{ gbfId := 10, funcName := "f", paramCount := 1 }],
    functionParams := [], fields := [],
    ruleLines := [{ lineId := 1, ruleId := 1, functionId := 10,
                    isCondition := true, sequenceNum := 0 }],
    ruleLineParams := [{ paramId := 1, lineId := 1, paramIndex := 0,
                         fieldId := Option.none,
                         literalValue := Option.none }],
    ruleGroups := [], groupRules := [] }

/-- C10 witness: concrete instantiation of the missing-value theorem. -/
theorem generate_code_missing_param_value_errors_witness :
    generate_code w10db 1 = Option.none :=
  generate_code_missing_param_value_errors w10db 1
    { lineId := 1, ruleId := 1, functionId := 10, isCondition := true,
      sequenceNum := 0 }
    { paramId := 1, lineId := 1, paramIndex := 0, fieldId := Option.none,
      literalValue := Option.none }
    (by decide) rfl
    ⟨{ gbfId := 10, funcName := "f", paramCount := 1 }, by decide, rfl⟩
    (by decide) rfl rfl rfl

/-- C4: within a rule, the condition block consists of exactly the rule's
condition lines (that join to the catalog) and the action block of exactly
its action lines; within each block the emission order is ascending by
sequence number, and the output is the per-block newline join of those
statements in that order — the two phases never mix. -/
theorem generate_code_phase_ordering (db : DB) (rid : Nat) :
    (condLines db rid).Perm
      ((joinedLines db rid).filter (fun l => l.1.isCondition)) ∧
    (actionLines db rid).Perm
      ((joinedLines db rid).filter (fun l => !l.1.isCondition)) ∧
    (condLines db rid).Pairwise
      (fun a b => a.1.sequenceNum ≤ b.1.sequenceNum) ∧
    (actionLines db rid).Pairwise
      (fun a b => a.1.sequenceNum ≤ b.1.sequenceNum) ∧
    generate_code db rid = (do
      let cs ← optMapList (renderLine db) (condLines db rid)
      let bs ← optMapList (renderLine db) (actionLines db rid)
      pure { conditionCode := String.intercalate "\n" cs,
             actionCode := String.intercalate "\n" bs }) := by
  have hperm : (sortedLines db rid).Perm (joinedLines db rid) :=
    List.perm_insertionSort lineRel (joinedLines db rid)
  have hsorted : (sortedLines db rid).Pairwise lineRel :=
    List.sorted_insertionSort lineRel (joinedLines db rid)
  refine ⟨hperm.filter _, hperm.filter _, ?_, ?_, ?_⟩
  · have h1 : (condLines db rid).Pairwise lineRel := hsorted.filter _
    refine h1.imp_of_mem ?_
    intro a b ha hb hab
    have ha' : a.1.isCondition = true := by
      simpa using (List.mem_filter.mp ha).2
    have hb' : b.1.isCondition = true := by
      simpa using (List.mem_filter.mp hb).2
    have hle : lineLe a b = true := hab
    unfold lineLe at hle
    rw [ha', hb'] at hle
    simpa using hle
  · have h1 : (actionLines db rid).Pairwise lineRel := hsorted.filter _
    refine h1.imp_of_mem ?_
    intro a b ha hb hab
    have ha' : a.1.isCondition = false := by
      simpa using (List.mem_filter.mp ha).2
    have hb' : b.1.isCondition = false := by
      simpa using (List.mem_filter.mp hb).2
    have hle : lineLe a b = true := hab
    unfold lineLe at hle
    rw [ha', hb'] at hle
    simpa using hle
  · have hb := buildBlocks_eq_blocksSpec db (sortedLines db rid)
    have hi : String.intercalate "\n" ([] : List String) = "" := rfl
    unfold generate_code
    cases hE : (sortedLines db rid).isEmpty with
    | true =>
      have hnil : sortedLines db rid = [] := List.isEmpty_iff.mp hE
      simp [hnil, condLines, actionLines, optMapList, hi]
    | false =>
      simp only [hE, Bool.false_eq_true, if_false]
      rw [hb]
      unfold blocksSpec condLines actionLines
      cases hA : optMapList (renderLine db)
          ((sortedLines db rid).filter (fun l => l.1.isCondition)) <;>
        cases hB : optMapList (renderLine db)
            ((sortedLines db rid).filter (fun l => !l.1.isCondition)) <;>
          simp [hA, hB]
